import Mathlib

/-!
Shallow embedding of the CloudStorage repository's rate limiter
(`src/lib/rate-limit.ts`) and Stripe webhook reconciliation handler
(`src/app/api/stripe/webhook` route, given as `src/unnamed/part_002`),
with theorems settling the specification claims about them.

Timestamps (`Date.now()` values) are modelled as `Int` milliseconds.
JavaScript `Map` stores are modelled by their key-to-value mapping
(`String → Option _`); `Set` insertion order is modelled by a list.
-/

namespace CloudStorage

/-! ## Rate limiter (`src/lib/rate-limit.ts`) -/

structure RateLimitEntry where
  count : Nat
  resetAt : Int
deriving DecidableEq, Repr

structure RateLimitConfig where
  maxRequests : Nat
  windowMs : Int
deriving DecidableEq, Repr

structure RateLimitResult where
  success : Bool
  remaining : Int
  resetAt : Int
  retryAfter : Option Int
deriving DecidableEq, Repr

-- `Math.ceil(d / 1000)` on an integer number of milliseconds `d`.
def jsCeil1000 (d : Int) : Int := -((-d).fdiv 1000)

-- The abstract `RateLimitStore` interface: `get` and `set` may fail
-- (the Redis-backed implementation can throw); `get` observes the
-- current time because `MemoryStore.get` consults `Date.now()`.
structure RateLimitStore (σ : Type) where
  get : σ → Int → String → Except String (Option RateLimitEntry × σ)
  set : σ → String → RateLimitEntry → Int → Except String σ

-- Body of `checkRateLimit` inside the `try` block (source lines 175-211);
-- a thrown backing-store error is propagated as `Except.error`.
def checkRateLimitAttempt {σ : Type} (ops : RateLimitStore σ) (now : Int)
    (key : String) (config : RateLimitConfig) (s : σ) :
    Except String (RateLimitResult × σ) :=
  match ops.get s now key with
  | .error e => .error e
  | .ok (entry?, s1) =>
    -- `if (!entry || entry.resetAt < now)`: create a fresh entry.
    let fresh : Except String (RateLimitResult × σ) :=
      match ops.set s1 key ⟨1, now + config.windowMs⟩ config.windowMs with
      | .error e => .error e
      | .ok s2 =>
        .ok ({ success := true, remaining := (config.maxRequests : Int) - 1,
               resetAt := now + config.windowMs, retryAfter := none }, s2)
    match entry? with
    | none => fresh
    | some entry =>
      if entry.resetAt < now then fresh
      else if config.maxRequests ≤ entry.count then
        -- `entry.count >= config.maxRequests`: deny.
        .ok ({ success := false, remaining := 0, resetAt := entry.resetAt,
               retryAfter := some (jsCeil1000 (entry.resetAt - now)) }, s1)
      else
        -- `entry.count++` then `store.set(key, entry, entry.resetAt - now)`.
        match ops.set s1 key ⟨entry.count + 1, entry.resetAt⟩ (entry.resetAt - now) with
        | .error e => .error e
        | .ok s2 =>
          .ok ({ success := true,
                 remaining := (config.maxRequests : Int) - ((entry.count : Int) + 1),
                 resetAt := entry.resetAt, retryAfter := none }, s2)

-- `checkRateLimit`, with the `catch` branch: on any backing-store error
-- the request is admitted with full quota reported (fail-open).
def checkRateLimit {σ : Type} (ops : RateLimitStore σ) (now : Int)
    (key : String) (config : RateLimitConfig) (s : σ) : RateLimitResult × σ :=
  match checkRateLimitAttempt ops now key config s with
  | .ok r => r
  | .error _ =>
    ({ success := true, remaining := (config.maxRequests : Int),
       resetAt := now + config.windowMs, retryAfter := none }, s)

/-! ### The in-memory store (`MemoryStore`, backed by a `Map`) -/

abbrev MemStore := String → Option RateLimitEntry

def memUpd (s : MemStore) (key : String) (e : Option RateLimitEntry) : MemStore :=
  fun k => if k = key then e else s k

-- `MemoryStore.get`: expired entries are deleted and reported absent.
def memGet (s : MemStore) (now : Int) (key : String) :
    Except String (Option RateLimitEntry × MemStore) :=
  match s key with
  | none => .ok (none, s)
  | some e =>
    if e.resetAt < now then .ok (none, memUpd s key none)
    else .ok (some e, s)

-- `MemoryStore.set` (the ttl argument is ignored by the source).
def memSet (s : MemStore) (key : String) (e : RateLimitEntry) (_ttl : Int) :
    Except String MemStore :=
  .ok (memUpd s key (some e))

def memOps : RateLimitStore MemStore := ⟨memGet, memSet⟩

-- `checkRateLimitSync` (source lines 227-272): reads the shared map
-- directly, with the same fixed-window logic, and never throws.
def checkRateLimitSync (now : Int) (key : String) (config : RateLimitConfig)
    (s : MemStore) : RateLimitResult × MemStore :=
  match s key with
  | none =>
    ({ success := true, remaining := (config.maxRequests : Int) - 1,
       resetAt := now + config.windowMs, retryAfter := none },
     memUpd s key (some ⟨1, now + config.windowMs⟩))
  | some entry =>
    if entry.resetAt < now then
      ({ success := true, remaining := (config.maxRequests : Int) - 1,
         resetAt := now + config.windowMs, retryAfter := none },
       memUpd s key (some ⟨1, now + config.windowMs⟩))
    else if config.maxRequests ≤ entry.count then
      ({ success := false, remaining := 0, resetAt := entry.resetAt,
         retryAfter := some (jsCeil1000 (entry.resetAt - now)) }, s)
    else
      ({ success := true,
         remaining := (config.maxRequests : Int) - ((entry.count : Int) + 1),
         resetAt := entry.resetAt, retryAfter := none },
       memUpd s key (some ⟨entry.count + 1, entry.resetAt⟩))

-- A sequence of calls to the async limiter at the given times, threading
-- the shared store through; returns the list of results and final store.
def rlRuns (times : List Int) (key : String) (config : RateLimitConfig)
    (s : MemStore) : List RateLimitResult × MemStore :=
  match times with
  | [] => ([], s)
  | t :: ts =>
    let (r, s1) := checkRateLimit memOps t key config s
    let (rs, s2) := rlRuns ts key config s1
    (r :: rs, s2)

/-! ## Billing data model (Prisma `Subscription`, `Invoice`, `User` rows) -/

inductive SubStatus
  | ACTIVE | INACTIVE | PAST_DUE | CANCELED | TRIALING
deriving DecidableEq, Repr

inductive InvStatus
  | DRAFT | OPEN | PAID | VOID | UNCOLLECTIBLE
deriving DecidableEq, Repr

structure Subscription where
  userId : String
  stripeCustomerId : String
  stripeSubscriptionId : Option String
  stripePriceId : Option String
  planType : String
  status : SubStatus
  storageLimit : Int
  storageUsed : Int
  stripeCurrentPeriodEnd : Option Int
  cancelAtPeriodEnd : Bool
deriving DecidableEq, Repr

structure Invoice where
  userId : String
  stripeInvoiceId : String
  stripeCustomerId : String
  stripeSubscriptionId : Option String
  amountDue : Int
  amountPaid : Int
  currency : String
  status : InvStatus
  invoiceUrl : Option String
  hostedInvoiceUrl : Option String
  periodStart : Option Int
  periodEnd : Option Int
  dueDate : Option Int
  voidedAt : Option Int
  description : String
deriving DecidableEq, Repr

structure User where
  id_user : String
  stripeCustomerId : Option String
deriving DecidableEq, Repr

structure DB where
  users : List User
  subscriptions : List Subscription
  invoices : List Invoice
deriving DecidableEq, Repr

/-! ### Prisma operations, modelled on the row lists.
`upsert` updates the matching row in place or appends a new one;
`update` with no matching row throws (`P2025`); `updateMany` updates
every matching row and never throws. -/

def subUpsert (db : DB) (userId : String) (create : Subscription)
    (update : Subscription → Subscription) : DB :=
  if db.subscriptions.any (fun s => s.userId = userId) then
    { db with subscriptions :=
        db.subscriptions.map (fun s => if s.userId = userId then update s else s) }
  else
    { db with subscriptions := db.subscriptions ++ [create] }

def subUpdate (db : DB) (userId : String)
    (update : Subscription → Subscription) : Except String DB :=
  if db.subscriptions.any (fun s => s.userId = userId) then
    .ok { db with subscriptions :=
        db.subscriptions.map (fun s => if s.userId = userId then update s else s) }
  else
    .error "P2025: record to update not found"

def invUpsert (db : DB) (stripeInvoiceId : String) (create : Invoice)
    (update : Invoice → Invoice) : DB :=
  if db.invoices.any (fun i => i.stripeInvoiceId = stripeInvoiceId) then
    { db with invoices :=
        db.invoices.map (fun i => if i.stripeInvoiceId = stripeInvoiceId then update i else i) }
  else
    { db with invoices := db.invoices ++ [create] }

def invUpdateMany (db : DB) (stripeInvoiceId : String)
    (update : Invoice → Invoice) : DB :=
  { db with invoices :=
      db.invoices.map (fun i => if i.stripeInvoiceId = stripeInvoiceId then update i else i) }

def userFindByCustomer (db : DB) (customerId : String) : Option User :=
  db.users.find? (fun u => decide (u.stripeCustomerId = some customerId))

/-! ## Stripe event payloads (the fields the handlers read) -/

structure CheckoutSession where
  customer : String
  subscription : Option String
  metadataUserId : Option String
  metadataPlanType : Option String
deriving DecidableEq, Repr

structure StripeSubscription where
  id : String
  customer : String
  status : String
  itemsPriceId : String
  current_period_end : Option Int
  cancel_at_period_end : Bool
  metadataUserId : Option String
  metadataPlanType : Option String
deriving DecidableEq, Repr

structure StripeInvoice where
  id : String
  customer : String
  subscription : Option String
  amount_due : Int
  amount_paid : Int
  currency : String
  invoice_pdf : Option String
  hosted_invoice_url : Option String
  period_start : Option Int
  period_end : Option Int
  due_date : Option Int
  number : Option String
  description : Option String
  voided_at : Option Int
deriving DecidableEq, Repr

structure CreditNote where
  invoice : Option String
  amount : Int
deriving DecidableEq, Repr

inductive EventData
  | checkoutSessionCompleted (s : CheckoutSession)
  | customerSubscriptionCreated (s : StripeSubscription)
  | customerSubscriptionUpdated (s : StripeSubscription)
  | customerSubscriptionDeleted (s : StripeSubscription)
  | invoiceFinalized (i : StripeInvoice)
  | invoicePaymentSucceeded (i : StripeInvoice)
  | invoicePaymentFailed (i : StripeInvoice)
  | invoiceVoided (i : StripeInvoice)
  | creditNoteCreated (c : CreditNote)
  | otherEvent (eventType : String)
deriving DecidableEq, Repr

structure Event where
  id : String
  data : EventData
deriving DecidableEq, Repr

/-- Modelled from the spec: the plan table `SUBSCRIPTION_PLANS` lives in
`lib/stripe.ts`, which is not among the provided sources. Per the spec it
maps plan tiers (FREE, STANDARD, PRO) to a price id and a storage limit;
the handlers index it by the metadata plan-type string (an unknown key
yields `undefined`, so dereferencing it throws) and read its FREE entry. -/
structure Plan where
  priceId : String
  storageLimit : Int
deriving DecidableEq, Repr

structure PlanTable where
  lookup : String → Option Plan
  free : Plan

-- External collaborators of the webhook handlers: the plan table,
-- `stripe.subscriptions.retrieve` (may fail), and `Date.now()`.
structure WebhookEnv where
  plans : PlanTable
  retrieveSubscription : String → Except String StripeSubscription
  now : Int

/-! ## Webhook event handlers (`src/unnamed/part_002`) -/

def handleCheckoutCompleted (env : WebhookEnv) (session : CheckoutSession)
    (db : DB) : Except String DB :=
  match session.metadataUserId, session.metadataPlanType with
  | some userId, some planType =>
    match env.plans.lookup planType with
    | none => .error "TypeError: cannot read properties of undefined"
    | some plan =>
      .ok (subUpsert db userId
        { userId := userId
          stripeCustomerId := session.customer
          stripeSubscriptionId := session.subscription
          stripePriceId := some plan.priceId
          planType := planType
          status := .ACTIVE
          storageLimit := plan.storageLimit
          storageUsed := 0
          stripeCurrentPeriodEnd := none
          cancelAtPeriodEnd := false }
        (fun s => { s with
          stripeCustomerId := session.customer
          stripeSubscriptionId := session.subscription
          stripePriceId := some plan.priceId
          planType := planType
          status := .ACTIVE
          storageLimit := plan.storageLimit }))
  | _, _ => .ok db  -- missing metadata: logged and ignored

-- The provider-status-to-local-status mapping in `handleSubscriptionUpdate`.
def mapStripeStatus (s : String) : SubStatus :=
  if s = "active" then .ACTIVE
  else if s = "past_due" then .PAST_DUE
  else if s = "canceled" then .CANCELED
  else if s = "trialing" then .TRIALING
  else .INACTIVE

def handleSubscriptionUpdate (env : WebhookEnv) (sub : StripeSubscription)
    (db : DB) : Except String DB :=
  match sub.metadataUserId with
  | none => .ok db  -- missing userId: logged and ignored
  | some userId =>
    let plan : Option Plan :=
      match sub.metadataPlanType with
      | none => none
      | some pt => env.plans.lookup pt
    let status := mapStripeStatus sub.status
    let currentPeriodEnd := sub.current_period_end.map (· * 1000)
    .ok (subUpsert db userId
      { userId := userId
        stripeCustomerId := sub.customer
        stripeSubscriptionId := some sub.id
        stripePriceId := some sub.itemsPriceId
        planType := sub.metadataPlanType.getD "FREE"
        status := status
        storageLimit := (plan.map Plan.storageLimit).getD env.plans.free.storageLimit
        storageUsed := 0
        stripeCurrentPeriodEnd := currentPeriodEnd
        cancelAtPeriodEnd := sub.cancel_at_period_end }
      (fun s =>
        let s1 := { s with
          stripeSubscriptionId := some sub.id
          stripePriceId := some sub.itemsPriceId
          status := status
          stripeCurrentPeriodEnd := currentPeriodEnd
          cancelAtPeriodEnd := sub.cancel_at_period_end }
        match plan, sub.metadataPlanType with
        | some p, some pt => { s1 with planType := pt, storageLimit := p.storageLimit }
        | _, _ => s1))

def handleSubscriptionDeleted (env : WebhookEnv) (sub : StripeSubscription)
    (db : DB) : Except String DB :=
  match sub.metadataUserId with
  | none => .ok db  -- missing userId: logged and ignored
  | some userId =>
    subUpdate db userId (fun s => { s with
      stripeSubscriptionId := none
      planType := "FREE"
      status := .CANCELED
      storageLimit := env.plans.free.storageLimit
      cancelAtPeriodEnd := false })

def handleInvoicePaymentSucceeded (env : WebhookEnv) (inv : StripeInvoice)
    (db : DB) : Except String DB :=
  match inv.subscription with
  | none => .ok db
  | some sid => do
    let sub ← env.retrieveSubscription sid
    handleSubscriptionUpdate env sub db

def handleInvoicePaymentFailed (inv : StripeInvoice) (db : DB) :
    Except String DB :=
  match userFindByCustomer db inv.customer with
  | none => .ok db
  | some user =>
    match subUpdate db user.id_user (fun s => { s with status := .PAST_DUE }) with
    | .error e => .error e
    | .ok db1 => .ok (invUpdateMany db1 inv.id (fun i => { i with status := .OPEN }))

def handleInvoiceCreated (inv : StripeInvoice) (db : DB) : Except String DB :=
  match userFindByCustomer db inv.customer with
  | none => .ok db  -- unknown owner: logged and dropped
  | some user =>
    .ok (invUpsert db inv.id
      { userId := user.id_user
        stripeInvoiceId := inv.id
        stripeCustomerId := inv.customer
        stripeSubscriptionId := inv.subscription
        amountDue := inv.amount_due
        amountPaid := inv.amount_paid
        currency := inv.currency
        status := .OPEN
        invoiceUrl := inv.invoice_pdf
        hostedInvoiceUrl := inv.hosted_invoice_url
        periodStart := inv.period_start.map (· * 1000)
        periodEnd := inv.period_end.map (· * 1000)
        dueDate := inv.due_date.map (· * 1000)
        voidedAt := none
        description := inv.description.getD ("Facture " ++ inv.number.getD inv.id) }
      (fun i => { i with
        amountDue := inv.amount_due
        amountPaid := inv.amount_paid
        status := .OPEN
        invoiceUrl := inv.invoice_pdf
        hostedInvoiceUrl := inv.hosted_invoice_url }))

def handleInvoiceVoided (env : WebhookEnv) (inv : StripeInvoice) (db : DB) :
    Except String DB :=
  let voidedAt :=
    match inv.voided_at with
    | some t => t * 1000
    | none => env.now
  .ok (invUpdateMany db inv.id (fun i => { i with status := .VOID, voidedAt := some voidedAt }))

def handleCreditNoteCreated (env : WebhookEnv) (cn : CreditNote) (db : DB) :
    Except String DB :=
  match cn.invoice with
  | none => .ok db
  | some invoiceId =>
    .ok (invUpdateMany db invoiceId (fun i => { i with status := .VOID, voidedAt := some env.now }))

-- The `switch (event.type)` dispatcher.
def dispatchEvent (env : WebhookEnv) (data : EventData) (db : DB) :
    Except String DB :=
  match data with
  | .checkoutSessionCompleted s => handleCheckoutCompleted env s db
  | .customerSubscriptionCreated s => handleSubscriptionUpdate env s db
  | .customerSubscriptionUpdated s => handleSubscriptionUpdate env s db
  | .customerSubscriptionDeleted s => handleSubscriptionDeleted env s db
  | .invoiceFinalized i => handleInvoiceCreated i db
  | .invoicePaymentSucceeded i => handleInvoicePaymentSucceeded env i db
  | .invoicePaymentFailed i => handleInvoicePaymentFailed i db
  | .invoiceVoided i => handleInvoiceVoided env i db
  | .creditNoteCreated c => handleCreditNoteCreated env c db
  | .otherEvent _ => .ok db  -- unrecognized type: logged and ignored

/-! ## The webhook `POST` handler -/

structure WebhookState where
  processedEvents : List String
  db : DB
deriving DecidableEq, Repr

inductive WebhookResponse
  | badRequest (msg : String)   -- HTTP 400
  | received (duplicate : Bool) -- HTTP 200 `\x7breceived: true, duplicate?\x7d`
  | serverError                 -- HTTP 500
deriving DecidableEq, Repr

-- `processedEvents.add(event.id)` followed by eviction of the oldest
-- entry once the set exceeds 1000 elements (source lines 101-108).
def markProcessed (ids : List String) (id : String) : List String :=
  let added := if id ∈ ids then ids else ids ++ [id]
  if 1000 < added.length then added.drop 1 else added

-- The `POST` route handler. `verify` stands for
-- `stripe.webhooks.constructEvent(body, signature, secret)`.
def webhookPOST (env : WebhookEnv) (verify : String → String → Except String Event)
    (body : String) (signature : Option String) (st : WebhookState) :
    WebhookResponse × WebhookState :=
  match signature with
  | none => (.badRequest "Signature manquante", st)
  | some sig =>
    match verify body sig with
    | .error msg => (.badRequest ("Webhook Error: " ++ msg), st)
    | .ok event =>
      if event.id ∈ st.processedEvents then
        (.received true, st)
      else
        match dispatchEvent env event.data st.db with
        | .error _ => (.serverError, st)
        | .ok db1 =>
          (.received false,
           { processedEvents := markProcessed st.processedEvents event.id, db := db1 })

/-! ## Helper lemmas about the in-memory rate limiter -/

theorem memUpd_self (s : MemStore) (key : String) (e : Option RateLimitEntry) :
    memUpd s key e key = e := by
  simp [memUpd]

-- With no usable entry (absent, or expired strictly before `now`) the
-- limiter installs a fresh window and admits with `maxRequests - 1` left.
theorem rl_mem_fresh (now : Int) (key : String) (cfg : RateLimitConfig) (s : MemStore)
    (h : s key = none ∨ ∃ e, s key = some e ∧ e.resetAt < now) :
    checkRateLimit memOps now key cfg s =
      ({ success := true, remaining := (cfg.maxRequests : Int) - 1,
         resetAt := now + cfg.windowMs, retryAfter := none },
       memUpd s key (some ⟨1, now + cfg.windowMs⟩)) := by
  rcases h with h | ⟨e, he, hlt⟩
  · simp [checkRateLimit, checkRateLimitAttempt, memOps, memGet, memSet, h]
  · simp only [checkRateLimit, checkRateLimitAttempt, memOps, memGet, memSet, he, hlt,
      if_pos]
    refine Prod.ext rfl ?_
    funext k
    by_cases hk : k = key <;> simp [memUpd, hk]

-- A live entry at quota denies the request and leaves the store alone.
theorem rl_mem_deny (now : Int) (key : String) (cfg : RateLimitConfig) (s : MemStore)
    (c : Nat) (R : Int) (hs : s key = some ⟨c, R⟩) (ht : now ≤ R)
    (hc : cfg.maxRequests ≤ c) :
    checkRateLimit memOps now key cfg s =
      ({ success := false, remaining := 0, resetAt := R,
         retryAfter := some (jsCeil1000 (R - now)) }, s) := by
  have h1 : ¬ (R < now) := not_lt.mpr ht
  simp [checkRateLimit, checkRateLimitAttempt, memOps, memGet, memSet, hs, h1, hc]

-- A live entry under quota is incremented in place and admitted.
theorem rl_mem_inc (now : Int) (key : String) (cfg : RateLimitConfig) (s : MemStore)
    (c : Nat) (R : Int) (hs : s key = some ⟨c, R⟩) (ht : now ≤ R)
    (hc : c < cfg.maxRequests) :
    checkRateLimit memOps now key cfg s =
      ({ success := true, remaining := (cfg.maxRequests : Int) - ((c : Int) + 1),
         resetAt := R, retryAfter := none },
       memUpd s key (some ⟨c + 1, R⟩)) := by
  have h1 : ¬ (R < now) := not_lt.mpr ht
  have h2 : ¬ (cfg.maxRequests ≤ c) := not_le.mpr hc
  simp [checkRateLimit, checkRateLimitAttempt, memOps, memGet, memSet, hs, h1, h2]

theorem jsCeil1000_pos (d : Int) (hd : 0 < d) : 0 < jsCeil1000 d := by
  unfold jsCeil1000
  rw [Int.fdiv_eq_ediv _ (by norm_num)]
  have h2 : (-d) / 1000 < 0 := Int.ediv_neg' (by omega) (by norm_num)
  omega

-- The result list a run of admitted calls is expected to produce when the
-- stored count starts at `c`.
def expectedAllowed (cfg : RateLimitConfig) (R : Int) : Nat → Nat → List RateLimitResult
  | _, 0 => []
  | c, n + 1 =>
    { success := true, remaining := (cfg.maxRequests : Int) - ((c : Int) + 1),
      resetAt := R, retryAfter := none } :: expectedAllowed cfg R (c + 1) n

theorem expectedAllowed_eq_range_map (cfg : RateLimitConfig) (R : Int) :
    ∀ (n c : Nat), expectedAllowed cfg R c n =
      (List.range n).map (fun i =>
        { success := true, remaining := (cfg.maxRequests : Int) - ((c : Int) + (i : Int) + 1),
          resetAt := R, retryAfter := none })
  | 0, c => by simp [expectedAllowed]
  | n + 1, c => by
    rw [expectedAllowed, expectedAllowed_eq_range_map cfg R n (c + 1),
      List.range_succ_eq_map, List.map_cons, List.map_map]
    refine congrArg₂ _ (by norm_num) (List.map_congr_left ?_)
    intro i _
    simp only [Function.comp_apply, RateLimitResult.mk.injEq, and_true, true_and]
    push_cast
    ring

-- Invariant run: starting from a live entry `⟨c, R⟩`, calls at times `≤ R`
-- that stay under quota are all admitted and leave count `c + ts.length`.
theorem rlRuns_live (key : String) (cfg : RateLimitConfig) (R : Int) :
    ∀ (ts : List Int) (c : Nat) (s : MemStore),
      s key = some ⟨c, R⟩ → (∀ t ∈ ts, t ≤ R) →
      c + ts.length ≤ cfg.maxRequests →
      (rlRuns ts key cfg s).fst = expectedAllowed cfg R c ts.length ∧
      (rlRuns ts key cfg s).snd key = some ⟨c + ts.length, R⟩
  | [], c, s => by
    intro hs _ _
    simp [rlRuns, expectedAllowed, hs]
  | t :: ts, c, s => by
    intro hs hts hc
    have ht : t ≤ R := hts t (by simp)
    have hclt : c < cfg.maxRequests := by
      simp only [List.length_cons] at hc; omega
    have hstep := rl_mem_inc t key cfg s c R hs ht hclt
    have hkey : memUpd s key (some ⟨c + 1, R⟩) key = some ⟨c + 1, R⟩ := memUpd_self ..
    have hlen : c + 1 + ts.length ≤ cfg.maxRequests := by
      simp only [List.length_cons] at hc; omega
    have ih := rlRuns_live key cfg R ts (c + 1) (memUpd s key (some ⟨c + 1, R⟩)) hkey
      (fun t' ht' => hts t' (by simp [ht'])) hlen
    rw [rlRuns, hstep]
    simp only [List.length_cons, expectedAllowed]
    constructor
    · simp [ih.1]
    · simpa [Nat.add_assoc, Nat.add_comm 1 ts.length] using ih.2

theorem rlRuns_append (key : String) (cfg : RateLimitConfig) :
    ∀ (xs ys : List Int) (s : MemStore),
      rlRuns (xs ++ ys) key cfg s =
        ((rlRuns xs key cfg s).fst ++ (rlRuns ys key cfg (rlRuns xs key cfg s).snd).fst,
         (rlRuns ys key cfg (rlRuns xs key cfg s).snd).snd)
  | [], ys, s => by simp [rlRuns]
  | x :: xs, ys, s => by
    simp only [List.cons_append, rlRuns, List.append_eq]
    rw [rlRuns_append key cfg xs ys]

-- Bridging lemma: a fresh admission followed by `n` incrementing
-- admissions is the `remaining = max-1, ..., 0` sequence of the contract.
theorem expectedAllowed_from_one (cfg : RateLimitConfig) (R : Int) (n : Nat)
    (h : n + 1 = cfg.maxRequests) :
    ({ success := true, remaining := (cfg.maxRequests : Int) - 1,
       resetAt := R, retryAfter := none } : RateLimitResult)
        :: expectedAllowed cfg R 1 n =
      (List.range cfg.maxRequests).map (fun i =>
        { success := true, remaining := (cfg.maxRequests : Int) - ((i : Int) + 1),
          resetAt := R, retryAfter := none }) := by
  rw [← h, List.range_succ_eq_map, List.map_cons, List.map_map,
    expectedAllowed_eq_range_map]
  refine congrArg₂ _ (by norm_num) (List.map_congr_left ?_)
  intro i _
  simp only [Function.comp_apply, RateLimitResult.mk.injEq, and_true, true_and]
  push_cast
  omega

/-! ## Claim theorems: rate limiter -/

/-- C2: fixed-window admission contract. Starting with no entry for the
key, the first `maxRequests` calls within one window are all admitted with
`remaining` counting down `maxRequests - 1, ..., 0` in order, and the
`(maxRequests + 1)`-th call in the same window is denied with
`remaining = 0` and a strictly positive `retryAfter`. -/
theorem checkRateLimit_window_contract
    (cfg : RateLimitConfig) (key : String) (s0 : MemStore)
    (t0 tl : Int) (mid : List Int)
    (h0 : s0 key = none)
    (hlen : mid.length + 1 = cfg.maxRequests)
    (hmid : ∀ t ∈ mid, t0 ≤ t ∧ t < t0 + cfg.windowMs)
    (htl : t0 ≤ tl ∧ tl < t0 + cfg.windowMs) :
    (rlRuns (t0 :: (mid ++ [tl])) key cfg s0).fst =
      (List.range cfg.maxRequests).map (fun i =>
        { success := true, remaining := (cfg.maxRequests : Int) - ((i : Int) + 1),
          resetAt := t0 + cfg.windowMs, retryAfter := none })
      ++ [{ success := false, remaining := 0, resetAt := t0 + cfg.windowMs,
            retryAfter := some (jsCeil1000 (t0 + cfg.windowMs - tl)) }] ∧
    0 < jsCeil1000 (t0 + cfg.windowMs - tl) := by
  have hfresh := rl_mem_fresh t0 key cfg s0 (Or.inl h0)
  have hs1 : memUpd s0 key (some ⟨1, t0 + cfg.windowMs⟩) key
      = some ⟨1, t0 + cfg.windowMs⟩ := memUpd_self ..
  have hmidrun := rlRuns_live key cfg (t0 + cfg.windowMs) mid 1
    (memUpd s0 key (some ⟨1, t0 + cfg.windowMs⟩)) hs1
    (fun t ht => le_of_lt (hmid t ht).2) (by omega)
  have hcount : (1 : Nat) + mid.length = cfg.maxRequests := by omega
  have hdeny := rl_mem_deny tl key cfg
    (rlRuns mid key cfg (memUpd s0 key (some ⟨1, t0 + cfg.windowMs⟩))).snd
    cfg.maxRequests (t0 + cfg.windowMs)
    (by rw [← hcount]; exact hmidrun.2) (le_of_lt htl.2) le_rfl
  constructor
  · rw [rlRuns, hfresh]
    simp only
    rw [rlRuns_append key cfg mid [tl], rlRuns, hdeny]
    simp only [rlRuns, hmidrun.1]
    rw [← expectedAllowed_from_one cfg (t0 + cfg.windowMs) mid.length hlen]
    rfl
  · exact jsCeil1000_pos _ (by omega)

theorem checkRateLimit_window_contract_witness :
    (rlRuns (0 :: ([0, 0, 0, 0] ++ [0])) "login:1.2.3.4"
        ⟨5, 900000⟩ (fun _ => none)).fst =
      (List.range 5).map (fun i =>
        { success := true, remaining := (5 : Int) - ((i : Int) + 1),
          resetAt := 0 + 900000, retryAfter := none })
      ++ [{ success := false, remaining := 0, resetAt := 0 + 900000,
            retryAfter := some (jsCeil1000 (0 + 900000 - 0)) }] ∧
    0 < jsCeil1000 (0 + 900000 - 0) :=
  checkRateLimit_window_contract ⟨5, 900000⟩ "login:1.2.3.4" (fun _ => none)
    0 0 [0, 0, 0, 0] rfl (by decide) (by decide) (by decide)

/-- C5 counterexample: a call made exactly at the stored `resetAt` does
NOT start a new window. With `maxRequests = 1`, entry `⟨1, 0⟩` and
`now = 0`, the claim predicts an admitted fresh-window call with
`remaining = 0` and `resetAt = 1000`; the code keeps the old entry live
(`entry.resetAt < now` is strict) and denies the call. -/
theorem window_reset_boundary_cex :
    (checkRateLimit memOps 0 "k" ⟨1, 1000⟩
        (fun k => if k = "k" then some ⟨1, 0⟩ else none)).fst =
      { success := false, remaining := 0, resetAt := 0, retryAfter := some 0 } := by
  decide

/-- C5 (amended): if the stored entry is absent, or `now` is STRICTLY
after its `resetAt`, the call installs a fresh entry
`⟨count := 1, resetAt := now + windowMs⟩` and is admitted with
`remaining = maxRequests - 1`; a call exactly at `resetAt` still counts
against the old window. -/
theorem checkRateLimit_window_reset (now : Int) (key : String)
    (cfg : RateLimitConfig) (s : MemStore)
    (h : s key = none ∨ ∃ e, s key = some e ∧ e.resetAt < now) :
    checkRateLimit memOps now key cfg s =
      ({ success := true, remaining := (cfg.maxRequests : Int) - 1,
         resetAt := now + cfg.windowMs, retryAfter := none },
       memUpd s key (some ⟨1, now + cfg.windowMs⟩)) :=
  rl_mem_fresh now key cfg s h

theorem checkRateLimit_window_reset_witness :
    checkRateLimit memOps 5 "k" ⟨3, 100⟩ (fun _ => none) =
      ({ success := true, remaining := (3 : Int) - 1, resetAt := 5 + 100,
         retryAfter := none },
       memUpd (fun _ => none) "k" (some ⟨1, 5 + 100⟩)) :=
  checkRateLimit_window_reset 5 "k" ⟨3, 100⟩ (fun _ => none) (Or.inl rfl)

/-- C6: rate limiting fails open. If the backing store raises an error
during the call, the result is admitted with the full quota reported
(`remaining = maxRequests`) and `resetAt = now + windowMs`; a
backing-store error never produces a denial. -/
theorem checkRateLimit_fail_open {σ : Type} (ops : RateLimitStore σ)
    (now : Int) (key : String) (cfg : RateLimitConfig) (s : σ)
    (h : ∃ msg, checkRateLimitAttempt ops now key cfg s = .error msg) :
    checkRateLimit ops now key cfg s =
      ({ success := true, remaining := (cfg.maxRequests : Int),
         resetAt := now + cfg.windowMs, retryAfter := none }, s) := by
  obtain ⟨msg, hmsg⟩ := h
  simp [checkRateLimit, hmsg]

def failingOps : RateLimitStore Unit :=
  ⟨fun _ _ _ => .error "redis down", fun _ _ _ _ => .error "redis down"⟩

theorem checkRateLimit_fail_open_witness :
    (∃ msg, checkRateLimitAttempt failingOps 7 "k" ⟨5, 60000⟩ () = .error msg) ∧
    checkRateLimit failingOps 7 "k" ⟨5, 60000⟩ () =
      ({ success := true, remaining := (5 : Int), resetAt := 7 + 60000,
         retryAfter := none }, ()) :=
  ⟨⟨"redis down", rfl⟩,
   checkRateLimit_fail_open failingOps 7 "k" ⟨5, 60000⟩ () ⟨"redis down", rfl⟩⟩

/-- C10: the asynchronous `checkRateLimit` backed by the in-memory store
and the synchronous `checkRateLimitSync` agree on every key, config,
shared store mapping and current time: same result and same resulting
store mapping. -/
theorem checkRateLimit_async_sync_equiv (now : Int) (key : String)
    (cfg : RateLimitConfig) (s : MemStore) :
    checkRateLimit memOps now key cfg s = checkRateLimitSync now key cfg s := by
  cases hs : s key with
  | none =>
    simp [checkRateLimit, checkRateLimitAttempt, checkRateLimitSync,
      memOps, memGet, memSet, hs]
  | some e =>
    by_cases hr : e.resetAt < now
    · simp only [checkRateLimit, checkRateLimitAttempt, checkRateLimitSync,
        memOps, memGet, memSet, hs, hr, if_pos]
      refine Prod.ext rfl ?_
      funext k
      by_cases hk : k = key <;> simp [memUpd, hk]
    · by_cases hc : cfg.maxRequests ≤ e.count <;>
        simp [checkRateLimit, checkRateLimitAttempt, checkRateLimitSync,
          memOps, memGet, memSet, hs, hr, hc]

/-! ## Helper lemmas and sample inputs for the webhook handler -/

-- A just-recorded event id survives the capacity eviction: the evicted
-- element is the oldest entry, and the new id was appended last.
theorem mem_markProcessed_self (ids : List String) (id : String) (h : id ∉ ids) :
    id ∈ markProcessed ids id := by
  simp only [markProcessed, if_neg h]
  by_cases hl : 1000 < (ids ++ [id]).length
  · rw [if_pos hl]
    match ids, hl with
    | [], hl => simp at hl
    | a :: l, _ => simp
  · rw [if_neg hl]
    simp

def samplePlanTable : PlanTable :=
  ⟨fun pt => if pt = "PRO" then some ⟨"price_pro", 107374182400⟩ else none,
   ⟨"price_free", 5368709120⟩⟩

def sampleEnv : WebhookEnv :=
  ⟨samplePlanTable, fun _ => .error "offline", 1700000000000⟩

def sampleDB : DB := ⟨[], [], []⟩

def sampleVerify : String → String → Except String Event :=
  fun _ _ => .ok ⟨"evt_1", .otherEvent "product.created"⟩

def sampleSubRow : Subscription :=
  { userId := "X", stripeCustomerId := "cus_1", stripeSubscriptionId := some "sub_1",
    stripePriceId := some "price_pro", planType := "PRO", status := .ACTIVE,
    storageLimit := 107374182400, storageUsed := 42, stripeCurrentPeriodEnd := none,
    cancelAtPeriodEnd := true }

/-! ## Claim theorems: webhook reconciliation -/

/-- C1: replaying a webhook event with the same event identifier is
idempotent. If a run of the handler on a verified event returns the
accepted (`received`) response, then running the handler again on the
same request leaves the whole persisted state (processed-event set and
subscription/invoice rows) exactly as after the first run, and the second
run answers `received` with the duplicate marker — the dispatch switch,
and hence every update function, is skipped. -/
theorem webhook_replay_idempotent (env env' : WebhookEnv)
    (verify : String → String → Except String Event) (body sig : String)
    (st : WebhookState) (d : Bool)
    (h : (webhookPOST env verify body (some sig) st).fst = .received d) :
    webhookPOST env' verify body (some sig)
        (webhookPOST env verify body (some sig) st).snd =
      (.received true, (webhookPOST env verify body (some sig) st).snd) := by
  cases hv : verify body sig with
  | error msg => simp [webhookPOST, hv] at h
  | ok e =>
    by_cases hm : e.id ∈ st.processedEvents
    · have h1 : webhookPOST env verify body (some sig) st = (.received true, st) := by
        simp [webhookPOST, hv, hm]
      rw [h1]
      simp [webhookPOST, hv, hm]
    · cases hdisp : dispatchEvent env e.data st.db with
      | error msg =>
        have h1 : (webhookPOST env verify body (some sig) st).fst = .serverError := by
          simp [webhookPOST, hv, hm, hdisp]
        rw [h1] at h
        cases h
      | ok db1 =>
        have h1 : webhookPOST env verify body (some sig) st =
            (.received false, ⟨markProcessed st.processedEvents e.id, db1⟩) := by
          simp [webhookPOST, hv, hm, hdisp]
        rw [h1]
        have hmem : e.id ∈ markProcessed st.processedEvents e.id :=
          mem_markProcessed_self st.processedEvents e.id hm
        simp [webhookPOST, hv, hmem]

theorem webhook_replay_idempotent_witness :
    webhookPOST sampleEnv sampleVerify "body" (some "sig")
        (webhookPOST sampleEnv sampleVerify "body" (some "sig") ⟨[], sampleDB⟩).snd =
      (.received true,
       (webhookPOST sampleEnv sampleVerify "body" (some "sig") ⟨[], sampleDB⟩).snd) :=
  webhook_replay_idempotent sampleEnv sampleEnv sampleVerify "body" "sig"
    ⟨[], sampleDB⟩ false (by decide)

/-- C4: webhook signature verification fails closed. If the signature
header is missing, or signature verification rejects the body, the
handler answers a 400-class error and the state — processed-event set,
subscription and invoice rows — is exactly the input state. -/
theorem webhook_signature_fail_closed (env : WebhookEnv)
    (verify : String → String → Except String Event) (body : String)
    (sig? : Option String) (st : WebhookState)
    (h : sig? = none ∨ ∃ sig msg, sig? = some sig ∧ verify body sig = .error msg) :
    ∃ m, webhookPOST env verify body sig? st = (.badRequest m, st) := by
  rcases h with h | ⟨sig, msg, hsig, hv⟩
  · subst h
    exact ⟨"Signature manquante", rfl⟩
  · subst hsig
    refine ⟨"Webhook Error: " ++ msg, ?_⟩
    simp [webhookPOST, hv]

theorem webhook_signature_fail_closed_witness :
    ∃ m, webhookPOST sampleEnv sampleVerify "body" none ⟨[], sampleDB⟩ =
      (.badRequest m, ⟨[], sampleDB⟩) :=
  webhook_signature_fail_closed sampleEnv sampleVerify "body" none ⟨[], sampleDB⟩
    (Or.inl rfl)

def cexSubDeleted : StripeSubscription :=
  { id := "sub_1", customer := "cus_1", status := "canceled",
    itemsPriceId := "price_1", current_period_end := none,
    cancel_at_period_end := false, metadataUserId := some "X",
    metadataPlanType := none }

def cexVerifySubDeleted : String → String → Except String Event :=
  fun _ _ => .ok ⟨"evt_del_1", .customerSubscriptionDeleted cexSubDeleted⟩

/-- C3 counterexample: a `customer.subscription.deleted` event for owner
`X` with NO prior Subscription row does not produce a FREE/CANCELED row.
The handler uses `prisma.subscription.update`, which throws when the row
is missing, so the request ends in a 500-class response and the
subscription table stays empty — the write is update-only, not an
upsert. -/
theorem subscriptionDeleted_missing_row_cex :
    (webhookPOST sampleEnv cexVerifySubDeleted "body" (some "sig")
        ⟨[], sampleDB⟩).fst = .serverError ∧
    ((webhookPOST sampleEnv cexVerifySubDeleted "body" (some "sig")
        ⟨[], sampleDB⟩).snd).db.subscriptions = [] := by
  decide

/-- C3 (amended): a subscription-deleted event carrying owner metadata
`X` performs an update-only write. When a Subscription row for `X`
exists, it is downgraded to planType FREE, status CANCELED, the
provider-subscription id is cleared (with the FREE storage limit and
`cancelAtPeriodEnd := false`); when no row exists, the update throws and
no row is created. -/
theorem subscriptionDeleted_update_only (env : WebhookEnv)
    (sub : StripeSubscription) (db : DB) (userId : String)
    (h : sub.metadataUserId = some userId) :
    (db.subscriptions.any (fun s => s.userId = userId) = false →
      handleSubscriptionDeleted env sub db =
        .error "P2025: record to update not found") ∧
    (db.subscriptions.any (fun s => s.userId = userId) = true →
      handleSubscriptionDeleted env sub db = .ok { db with
        subscriptions := db.subscriptions.map (fun s =>
          if s.userId = userId then
            { s with stripeSubscriptionId := none, planType := "FREE",
                     status := .CANCELED,
                     storageLimit := env.plans.free.storageLimit,
                     cancelAtPeriodEnd := false }
          else s) }) := by
  constructor <;> intro hh <;>
    simp [handleSubscriptionDeleted, h, subUpdate, hh]

theorem subscriptionDeleted_update_only_witness :
    (([sampleSubRow] : List Subscription).any (fun s => s.userId = "X") = false →
      handleSubscriptionDeleted sampleEnv cexSubDeleted ⟨[], [sampleSubRow], []⟩ =
        .error "P2025: record to update not found") ∧
    (([sampleSubRow] : List Subscription).any (fun s => s.userId = "X") = true →
      handleSubscriptionDeleted sampleEnv cexSubDeleted ⟨[], [sampleSubRow], []⟩ =
        .ok { (⟨[], [sampleSubRow], []⟩ : DB) with
          subscriptions := ([sampleSubRow] : List Subscription).map (fun s =>
            if s.userId = "X" then
              { s with stripeSubscriptionId := none, planType := "FREE",
                       status := .CANCELED,
                       storageLimit := sampleEnv.plans.free.storageLimit,
                       cancelAtPeriodEnd := false }
            else s) }) :=
  subscriptionDeleted_update_only sampleEnv cexSubDeleted ⟨[], [sampleSubRow], []⟩
    "X" rfl

/-- C7: an `invoice.payment_failed` event for a customer that resolves to
a local owner (who holds a Subscription row) sets that owner's
Subscription status to PAST_DUE and rewrites the status of every Invoice
row matching the provider invoice id to OPEN — not VOID; rows not
matching keep their status, so OPEN is the only invoice status value this
event writes. -/
theorem invoicePaymentFailed_past_due_open (inv : StripeInvoice) (db : DB)
    (user : User)
    (hu : userFindByCustomer db inv.customer = some user)
    (hs : db.subscriptions.any (fun s => s.userId = user.id_user) = true) :
    handleInvoicePaymentFailed inv db = .ok { db with
      subscriptions := db.subscriptions.map (fun s =>
        if s.userId = user.id_user then { s with status := .PAST_DUE } else s),
      invoices := db.invoices.map (fun i =>
        if i.stripeInvoiceId = inv.id then { i with status := .OPEN } else i) } := by
  simp [handleInvoicePaymentFailed, hu, subUpdate, hs, invUpdateMany]

def sampleUser : User := ⟨"X", some "cus_1"⟩

def sampleInvRow : Invoice :=
  { userId := "X", stripeInvoiceId := "in_1", stripeCustomerId := "cus_1",
    stripeSubscriptionId := some "sub_1", amountDue := 1999, amountPaid := 0,
    currency := "eur", status := .DRAFT, invoiceUrl := none,
    hostedInvoiceUrl := none, periodStart := none, periodEnd := none,
    dueDate := none, voidedAt := none, description := "Facture in_1" }

def samplePayFailedInvoice : StripeInvoice :=
  { id := "in_1", customer := "cus_1", subscription := some "sub_1",
    amount_due := 1999, amount_paid := 0, currency := "eur",
    invoice_pdf := none, hosted_invoice_url := none, period_start := none,
    period_end := none, due_date := none, number := none,
    description := none, voided_at := none }

def sampleDB2 : DB := ⟨[sampleUser], [sampleSubRow], [sampleInvRow]⟩

theorem invoicePaymentFailed_past_due_open_witness :
    handleInvoicePaymentFailed samplePayFailedInvoice sampleDB2 =
      .ok { sampleDB2 with
        subscriptions := sampleDB2.subscriptions.map (fun s =>
          if s.userId = sampleUser.id_user then { s with status := .PAST_DUE } else s),
        invoices := sampleDB2.invoices.map (fun i =>
          if i.stripeInvoiceId = samplePayFailedInvoice.id then { i with status := .OPEN }
          else i) } :=
  invoicePaymentFailed_past_due_open samplePayFailedInvoice sampleDB2 sampleUser
    (by decide) (by decide)

/-- C8: a verified `invoice.finalized` event whose provider customer id
resolves to no local user is dropped but acknowledged: the database
(including every Invoice row) is untouched, the response is the accepted
`received` response rather than an error, and the event id is added to
the processed-event set. -/
theorem invoiceFinalized_unknown_owner_acked (env : WebhookEnv)
    (verify : String → String → Except String Event) (body sig : String)
    (st : WebhookState) (e : Event) (inv : StripeInvoice)
    (hv : verify body sig = .ok e) (hd : e.data = .invoiceFinalized inv)
    (hnew : e.id ∉ st.processedEvents)
    (hu : userFindByCustomer st.db inv.customer = none) :
    webhookPOST env verify body (some sig) st =
      (.received false,
       { processedEvents := markProcessed st.processedEvents e.id, db := st.db }) ∧
    e.id ∈ (webhookPOST env verify body (some sig) st).snd.processedEvents := by
  have hdisp : dispatchEvent env e.data st.db = .ok st.db := by
    rw [hd]
    simp [dispatchEvent, handleInvoiceCreated, hu]
  have h1 : webhookPOST env verify body (some sig) st =
      (.received false,
       ⟨markProcessed st.processedEvents e.id, st.db⟩) := by
    simp [webhookPOST, hv, hnew, hdisp]
  exact ⟨h1, by rw [h1]; exact mem_markProcessed_self _ _ hnew⟩

def cexUnknownInvoice : StripeInvoice :=
  { id := "in_2", customer := "cus_unknown", subscription := none,
    amount_due := 500, amount_paid := 0, currency := "eur",
    invoice_pdf := none, hosted_invoice_url := none, period_start := none,
    period_end := none, due_date := none, number := none,
    description := none, voided_at := none }

def cexVerifyInvoiceFinalized : String → String → Except String Event :=
  fun _ _ => .ok ⟨"evt_inv_2", .invoiceFinalized cexUnknownInvoice⟩

theorem invoiceFinalized_unknown_owner_acked_witness :
    (webhookPOST sampleEnv cexVerifyInvoiceFinalized "body" (some "sig")
        ⟨[], sampleDB2⟩ =
      (.received false,
       { processedEvents := markProcessed [] "evt_inv_2", db := sampleDB2 })) ∧
    "evt_inv_2" ∈ (webhookPOST sampleEnv cexVerifyInvoiceFinalized "body" (some "sig")
        ⟨[], sampleDB2⟩).snd.processedEvents :=
  invoiceFinalized_unknown_owner_acked sampleEnv cexVerifyInvoiceFinalized "body" "sig"
    ⟨[], sampleDB2⟩ ⟨"evt_inv_2", .invoiceFinalized cexUnknownInvoice⟩
    cexUnknownInvoice rfl rfl (by decide) (by decide)

/-- C9: a checkout-completed event with owner and a known plan in its
metadata upserts the owner's Subscription: on create the row carries the
plan, status ACTIVE, the plan's storage limit and `storageUsed = 0`; on
update the existing row's plan, status, price and limit fields are
rewritten while `storageUsed` (and every field not listed) is left
unchanged. -/
theorem checkoutCompleted_upsert_frame (env : WebhookEnv)
    (session : CheckoutSession) (db : DB) (userId planType : String)
    (plan : Plan)
    (hu : session.metadataUserId = some userId)
    (hp : session.metadataPlanType = some planType)
    (hl : env.plans.lookup planType = some plan) :
    (db.subscriptions.any (fun s => s.userId = userId) = false →
      handleCheckoutCompleted env session db = .ok { db with
        subscriptions := db.subscriptions ++
          [{ userId := userId, stripeCustomerId := session.customer,
             stripeSubscriptionId := session.subscription,
             stripePriceId := some plan.priceId, planType := planType,
             status := .ACTIVE, storageLimit := plan.storageLimit,
             storageUsed := 0, stripeCurrentPeriodEnd := none,
             cancelAtPeriodEnd := false }] }) ∧
    (db.subscriptions.any (fun s => s.userId = userId) = true →
      handleCheckoutCompleted env session db = .ok { db with
        subscriptions := db.subscriptions.map (fun s =>
          if s.userId = userId then
            { s with stripeCustomerId := session.customer,
                     stripeSubscriptionId := session.subscription,
                     stripePriceId := some plan.priceId,
                     planType := planType, status := .ACTIVE,
                     storageLimit := plan.storageLimit }
          else s) }) := by
  constructor <;> intro hh <;>
    simp [handleCheckoutCompleted, hu, hp, hl, subUpsert, hh]

def sampleSession : CheckoutSession :=
  { customer := "cus_1", subscription := some "sub_2",
    metadataUserId := some "X", metadataPlanType := some "PRO" }

theorem checkoutCompleted_upsert_frame_witness :
    (([sampleSubRow] : List Subscription).any (fun s => s.userId = "X") = false →
      handleCheckoutCompleted sampleEnv sampleSession ⟨[], [sampleSubRow], []⟩ =
        .ok { (⟨[], [sampleSubRow], []⟩ : DB) with
          subscriptions := [sampleSubRow] ++
            [{ userId := "X", stripeCustomerId := sampleSession.customer,
               stripeSubscriptionId := sampleSession.subscription,
               stripePriceId := some (⟨"price_pro", 107374182400⟩ : Plan).priceId,
               planType := "PRO", status := .ACTIVE,
               storageLimit := (⟨"price_pro", 107374182400⟩ : Plan).storageLimit,
               storageUsed := 0, stripeCurrentPeriodEnd := none,
               cancelAtPeriodEnd := false }] }) ∧
    (([sampleSubRow] : List Subscription).any (fun s => s.userId = "X") = true →
      handleCheckoutCompleted sampleEnv sampleSession ⟨[], [sampleSubRow], []⟩ =
        .ok { (⟨[], [sampleSubRow], []⟩ : DB) with
          subscriptions := ([sampleSubRow] : List Subscription).map (fun s =>
            if s.userId = "X" then
              { s with stripeCustomerId := sampleSession.customer,
                       stripeSubscriptionId := sampleSession.subscription,
                       stripePriceId := some (⟨"price_pro", 107374182400⟩ : Plan).priceId,
                       planType := "PRO", status := .ACTIVE,
                       storageLimit := (⟨"price_pro", 107374182400⟩ : Plan).storageLimit }
            else s) }) :=
  checkoutCompleted_upsert_frame sampleEnv sampleSession ⟨[], [sampleSubRow], []⟩
    "X" "PRO" ⟨"price_pro", 107374182400⟩ rfl rfl (by decide)

end CloudStorage
